import Mathlib

/-!
Verification development for the GreenRetailAI emissions pipeline
(src/utils.py).  The pandas data frame is embedded as an ordered list of
named columns of cells; numeric cells are exact rationals (the idealized
semantics of Python floats), and an auxiliary binary64 rounding model is
used where a claim turns on floating-point representation.  Fallible
Python code (raised exceptions) is embedded with Except.
-/

set_option maxRecDepth 4000

namespace GreenRetail

/-- Cell values appearing in this pipeline: floating-point numbers
(modelled as exact rationals), booleans, and strings such as city
names. -/
inductive Value where
  | num (q : ℚ)
  | bool (b : Bool)
  | str (s : String)
deriving DecidableEq

/-- A pandas DataFrame: an ordered list of named columns. -/
structure DataFrame where
  cols : List (String × List Value)
deriving DecidableEq

/-- Names of the columns, in order. -/
def DataFrame.colNames (df : DataFrame) : List String :=
  df.cols.map Prod.fst

/-- Reading a column by name, as in df[name] on the right-hand side. -/
def DataFrame.getCol (df : DataFrame) (name : String) : Option (List Value) :=
  (df.cols.find? fun c => c.1 == name).map Prod.snd

/-- Column assignment on the underlying list: pandas df[name] = vs
replaces the column in place when it exists and appends it at the end
otherwise. -/
def setColAux (name : String) (vs : List Value) :
    List (String × List Value) → List (String × List Value)
  | [] => [(name, vs)]
  | c :: rest =>
      if c.1 == name then (name, vs) :: rest else c :: setColAux name vs rest

/-- Column assignment, as in df[name] = vs. -/
def DataFrame.setCol (df : DataFrame) (name : String) (vs : List Value) :
    DataFrame :=
  ⟨setColAux name vs df.cols⟩

/-- Effectful map over a list in the Except monad, stopping at the first
raised error, as a Python loop or pandas apply does. -/
def mapE {α β : Type} (f : α → Except String β) :
    List α → Except String (List β)
  | [] => Except.ok []
  | a :: as =>
      match f a with
      | Except.error e => Except.error e
      | Except.ok b =>
          match mapE f as with
          | Except.error e => Except.error e
          | Except.ok bs => Except.ok (b :: bs)

/-- A raw tabular source (the CSV file): named columns of raw cells,
where a cell either parses as a number or is malformed (none). -/
structure SourceTable where
  cols : List (String × List (Option ℚ))
deriving DecidableEq

/-- The four fixed coordinate column names (the cols list in
load_delivery_data). -/
def requiredCols : List String :=
  ["poi_lat", "poi_lng", "receipt_lat", "receipt_lng"]

/-- Parsing one raw cell, as the CSV reader does for a numeric column. -/
def parseCell (colName : String) : Option ℚ → Except String Value
  | some q => Except.ok (Value.num q)
  | none =>
      Except.error ("could not convert string to float in column " ++ colName)

/-- Modelled from the behavior of pandas.read_csv with usecols and nrows:
keep only the columns named in usecols (in source order), truncated to
the first nrows rows, failing when a requested column is missing from the
source or a kept cell is malformed. -/
def read_csv (src : SourceTable) (usecols : List String) (nrows : Nat) :
    Except String DataFrame :=
  if usecols.all (fun c => (src.cols.map Prod.fst).contains c) then
    match mapE
        (fun c =>
          match mapE (parseCell c.1) (c.2.take nrows) with
          | Except.error e => Except.error e
          | Except.ok vs => Except.ok (c.1, vs))
        (src.cols.filter fun c => usecols.contains c.1) with
    | Except.error e => Except.error e
    | Except.ok parsed => Except.ok ⟨parsed⟩
  else
    Except.error "Usecols do not match columns, columns expected but not found"

/-- Division of a cell by 1e6, as in df[col] = df[col] / 1e6.  The loader
only ever applies it to numeric cells produced by read_csv. -/
def divMicro : Value → Value
  | Value.num q => Value.num (q / 1000000)
  | Value.bool b => Value.bool b
  | Value.str t => Value.str t

/-- The conversion loop of load_delivery_data: for col in cols, set
df[col] = df[col] / 1e6.  A missing column is a KeyError. -/
def convertCols (df : DataFrame) : List String → Except String DataFrame
  | [] => Except.ok df
  | c :: rest =>
      match df.getCol c with
      | some vs => convertCols (df.setCol c (vs.map divMicro)) rest
      | none => Except.error ("KeyError: " ++ c)

/-- The two error kinds load_delivery_data raises: the re-raised
FileNotFoundError and the generic wrapping Exception. -/
inductive LoadErr where
  | notFound (msg : String)
  | loadError (msg : String)
deriving DecidableEq

/-- load_delivery_data from src/utils.py.  The filesystem is modelled as
the optional source table the path resolves to (none when the file does
not exist, which pandas reports as FileNotFoundError). -/
def load_delivery_data (fs : Option SourceTable) (path : String)
    (nrows : Nat) : Except LoadErr DataFrame :=
  match fs with
  | none => Except.error (LoadErr.notFound ("File not found at: " ++ path))
  | some src =>
      match read_csv src requiredCols nrows with
      | Except.error e =>
          Except.error (LoadErr.loadError ("Error reading delivery data: " ++ e))
      | Except.ok df0 =>
          match convertCols df0 requiredCols with
          | Except.error e =>
              Except.error
                (LoadErr.loadError ("Error reading delivery data: " ++ e))
          | Except.ok df => Except.ok df

/-- Round a rational to the nearest integer, ties to even. -/
def roundHalfEven (x : ℚ) : ℤ :=
  let n := ⌊x⌋
  let f := x - (n : ℚ)
  if f < 1 / 2 then n
  else if 1 / 2 < f then n + 1
  else if n % 2 = 0 then n else n + 1

/-- Round a rational to the nearest IEEE binary64 value (normal range
only: no overflow or subnormal handling, which the pipeline values never
reach), as Python float arithmetic does after each operation. -/
def flRound (x : ℚ) : ℚ :=
  if x = 0 then 0
  else
    (if x < 0 then -1 else 1) *
      (roundHalfEven (|x| / 2 ^ (Int.log 2 |x| - 52)) : ℚ) *
        2 ^ (Int.log 2 |x| - 52)

/-- Binary64 multiplication: exact product, then one rounding. -/
def fl64mul (a b : ℚ) : ℚ := flRound (a * b)

/-- Binary64 subtraction: exact difference, then one rounding. -/
def fl64sub (a b : ℚ) : ℚ := flRound (a - b)

/-- The ValueError message geopy.Point raises for an out-of-range
latitude; it names no trip index. -/
def latitudeErrMsg : String := "Latitude must be in the [-90; 90] range."

/-- Truncated remainder, as math.fmod on exact values. -/
def fmodQ (x y : ℚ) : ℚ :=
  x - y * ((if 0 ≤ x / y then (⌊x / y⌋ : ℤ) else ⌈x / y⌉) : ℚ)

/-- Modelled from geopy.point.Point normalization: wrap an angle into the
interval from -180 inclusive to 180 exclusive. -/
def normalizeAngle (x : ℚ) : ℚ :=
  let m := fmodQ x 360
  if m < -180 then m + 360 else if 180 ≤ m then m - 360 else m

/-- Modelled from geopy.point.Point: constructing a point fails with a
ValueError when the latitude is outside -90..90, while a longitude
outside -180..180 is silently normalized. -/
def mkPoint (lat lng : ℚ) : Except String (ℚ × ℚ) :=
  if 90 < |lat| then Except.error latitudeErrMsg
  else Except.ok (lat, if 180 < |lng| then normalizeAngle lng else lng)

/-- Modelled from geopy.distance.geodesic(...).km: both endpoints are
validated as Points, then the ellipsoidal distance computation runs on
the validated coordinates.  No claim depends on the numeric value of the
ellipsoidal formula, so it is a parameter gdist of the model. -/
def geodesicKm (gdist : ℚ × ℚ → ℚ × ℚ → ℚ) (a b : ℚ × ℚ) :
    Except String ℚ :=
  match mkPoint a.1 a.2 with
  | Except.error e => Except.error e
  | Except.ok p =>
      match mkPoint b.1 b.2 with
      | Except.error e => Except.error e
      | Except.ok q => Except.ok (gdist p q)

/-- Reading a numeric cell; a non-numeric cell in an arithmetic context
is a TypeError. -/
def Value.asNum : Value → Except String ℚ
  | Value.num q => Except.ok q
  | Value.bool _ => Except.error "TypeError: cell is not numeric"
  | Value.str _ => Except.error "TypeError: cell is not numeric"

/-- Reading a whole numeric column, as row[name] does across the rows; a
missing column is a KeyError. -/
def getNumCol (df : DataFrame) (name : String) : Except String (List ℚ) :=
  match df.getCol name with
  | some vs => mapE Value.asNum vs
  | none => Except.error ("KeyError: " ++ name)

/-- The per-row geodesic computation of compute_distances: zip the four
coordinate columns row-wise and apply geodesic to each row, stopping at
the first raised error, as df.apply(axis=1) does. -/
def computeDistCol (gdist : ℚ × ℚ → ℚ × ℚ → ℚ) (df : DataFrame) :
    Except String (List ℚ) :=
  match getNumCol df "poi_lat" with
  | Except.error e => Except.error e
  | Except.ok plat =>
      match getNumCol df "poi_lng" with
      | Except.error e => Except.error e
      | Except.ok plng =>
          match getNumCol df "receipt_lat" with
          | Except.error e => Except.error e
          | Except.ok rlat =>
              match getNumCol df "receipt_lng" with
              | Except.error e => Except.error e
              | Except.ok rlng =>
                  mapE (fun pr => geodesicKm gdist pr.1 pr.2)
                    ((plat.zip plng).zip (rlat.zip rlng))

/-- compute_distances from src/utils.py: compute the geodesic distance of
every row and store it in the distance_km column. -/
def compute_distances (gdist : ℚ × ℚ → ℚ × ℚ → ℚ) (df : DataFrame) :
    Except String DataFrame :=
  match computeDistCol gdist df with
  | Except.error e => Except.error e
  | Except.ok ds => Except.ok (df.setCol "distance_km" (ds.map Value.num))

/-- DIESEL_EMISSION_FACTOR from src/utils.py. -/
def DIESEL_EMISSION_FACTOR : ℚ := 0.21

/-- EV_EMISSION_FACTOR from src/utils.py. -/
def EV_EMISSION_FACTOR : ℚ := 0.05

/-- score_ev_priority, the inner step function of estimate_emissions. -/
def score_ev_priority (distance : ℚ) : ℚ :=
  if distance < 5 then 1
  else if distance < 10 then 0.9
  else if distance < 15 then 0.7
  else if distance < 20 then 0.5
  else if distance < 30 then 0.3
  else 0.1

/-- estimate_emissions from src/utils.py: derive the four emission
columns from the distance_km column (which none of the four assignments
touches, so reading it once up front is equivalent to the repeated reads
in the source). -/
def estimate_emissions (df : DataFrame) : Except String DataFrame :=
  match getNumCol df "distance_km" with
  | Except.error e => Except.error e
  | Except.ok ds =>
      Except.ok
        ((((df.setCol "co2_kg"
              (ds.map fun d => Value.num (d * DIESEL_EMISSION_FACTOR))).setCol
            "suggest_ev" (ds.map fun d => Value.bool (decide (d < 10)))).setCol
          "ev_saving_kg"
          (ds.map fun d =>
            Value.num (d * (DIESEL_EMISSION_FACTOR - EV_EMISSION_FACTOR)))).setCol
        "ev_priority_score" (ds.map fun d => Value.num (score_ev_priority d)))

/-- The five column names the two enrichment stages append. -/
def derivedCols : List String :=
  ["distance_km", "co2_kg", "suggest_ev", "ev_saving_kg", "ev_priority_score"]

/-- The binary64 value of the diesel factor literal 0.21. -/
def dieselF64 : ℚ := flRound 0.21

/-- The binary64 value of the EV factor literal 0.05. -/
def evF64 : ℚ := flRound 0.05

/-- co2_kg as the Python float arithmetic actually computes it. -/
def co2F64 (d : ℚ) : ℚ := fl64mul d dieselF64

/-- ev_saving_kg as the Python float arithmetic actually computes it. -/
def evSavingF64 (d : ℚ) : ℚ := fl64mul d (fl64sub dieselF64 evF64)

/-- An arbitrary concrete instantiation of the ellipsoidal-distance
parameter, used to run the pipeline on concrete scenarios whose outcome
does not depend on the distance values. -/
def gdistZero : ℚ × ℚ → ℚ × ℚ → ℚ := fun _ _ => 0

/-- The three-stage run of app.py (load, compute_distances,
estimate_emissions), with the loader error text forwarded. -/
def appPipeline (gdist : ℚ × ℚ → ℚ × ℚ → ℚ) (fs : Option SourceTable)
    (path : String) (nrows : Nat) : Except String DataFrame :=
  match load_delivery_data fs path nrows with
  | Except.error (LoadErr.notFound m) => Except.error m
  | Except.error (LoadErr.loadError m) => Except.error m
  | Except.ok df =>
      match compute_distances gdist df with
      | Except.error e => Except.error e
      | Except.ok d1 => estimate_emissions d1

/-- A source table holding exactly the four coordinate columns, with the
given raw cell values. -/
def mkSource (pl pg rl rg : List ℚ) : SourceTable :=
  ⟨[("poi_lat", pl.map some), ("poi_lng", pg.map some),
    ("receipt_lat", rl.map some), ("receipt_lng", rg.map some)]⟩

/-- A one-row source that also carries a city column next to the four
coordinate columns. -/
def srcCity : SourceTable :=
  ⟨[("city", [some 1]), ("poi_lat", [some 37000000]),
    ("poi_lng", [some (-122000000)]), ("receipt_lat", [some 37100000]),
    ("receipt_lng", [some (-122100000)])]⟩

/-- A malformed source missing three of the required columns. -/
def srcMissing : SourceTable :=
  ⟨[("poi_lat", [some 1])]⟩

/-- A one-row trip frame with the given decoded coordinates. -/
def dfTrip (plat plng rlat rlng : ℚ) : DataFrame :=
  ⟨[("poi_lat", [Value.num plat]), ("poi_lng", [Value.num plng]),
    ("receipt_lat", [Value.num rlat]), ("receipt_lng", [Value.num rlng])]⟩

/-- A frame holding just a distance_km column with the given values. -/
def dfDist (ds : List ℚ) : DataFrame :=
  ⟨[("distance_km", ds.map Value.num)]⟩

/-- The degenerate all-zero trip frame after compute_distances under
gdistZero. -/
def dfTripZeroDist : DataFrame :=
  ⟨[("poi_lat", [Value.num 0]), ("poi_lng", [Value.num 0]),
    ("receipt_lat", [Value.num 0]), ("receipt_lng", [Value.num 0]),
    ("distance_km", [Value.num 0])]⟩

/-- The degenerate all-zero trip frame after both enrichment stages under
gdistZero. -/
def dfTripZeroFull : DataFrame :=
  ⟨[("poi_lat", [Value.num 0]), ("poi_lng", [Value.num 0]),
    ("receipt_lat", [Value.num 0]), ("receipt_lng", [Value.num 0]),
    ("distance_km", [Value.num 0]), ("co2_kg", [Value.num 0]),
    ("suggest_ev", [Value.bool true]), ("ev_saving_kg", [Value.num 0]),
    ("ev_priority_score", [Value.num 1])]⟩

/-- The frame loaded from srcCity after compute_distances under
gdistZero. -/
def dfC1Dist : DataFrame :=
  ⟨[("poi_lat", [Value.num 37]), ("poi_lng", [Value.num (-122)]),
    ("receipt_lat", [Value.num 37.1]),
    ("receipt_lng", [Value.num (-122.1)]),
    ("distance_km", [Value.num 0])]⟩

/-- The frame loaded from srcCity after both enrichment stages under
gdistZero. -/
def dfC1Full : DataFrame :=
  ⟨[("poi_lat", [Value.num 37]), ("poi_lng", [Value.num (-122)]),
    ("receipt_lat", [Value.num 37.1]),
    ("receipt_lng", [Value.num (-122.1)]),
    ("distance_km", [Value.num 0]), ("co2_kg", [Value.num 0]),
    ("suggest_ev", [Value.bool true]), ("ev_saving_kg", [Value.num 0]),
    ("ev_priority_score", [Value.num 1])]⟩

/-- An in-memory one-row frame carrying a city column next to the four
coordinate columns, as an uploaded table would. -/
def dfCity : DataFrame :=
  ⟨[("city", [Value.str "SF"]), ("poi_lat", [Value.num 37]),
    ("poi_lng", [Value.num (-122)]), ("receipt_lat", [Value.num 37.1]),
    ("receipt_lng", [Value.num (-122.1)])]⟩

/-- dfCity after compute_distances under gdistZero. -/
def dfCityDist : DataFrame :=
  ⟨[("city", [Value.str "SF"]), ("poi_lat", [Value.num 37]),
    ("poi_lng", [Value.num (-122)]), ("receipt_lat", [Value.num 37.1]),
    ("receipt_lng", [Value.num (-122.1)]),
    ("distance_km", [Value.num 0])]⟩

/-- dfCity after both enrichment stages under gdistZero. -/
def dfCityFull : DataFrame :=
  ⟨[("city", [Value.str "SF"]), ("poi_lat", [Value.num 37]),
    ("poi_lng", [Value.num (-122)]), ("receipt_lat", [Value.num 37.1]),
    ("receipt_lng", [Value.num (-122.1)]),
    ("distance_km", [Value.num 0]), ("co2_kg", [Value.num 0]),
    ("suggest_ev", [Value.bool true]), ("ev_saving_kg", [Value.num 0]),
    ("ev_priority_score", [Value.num 1])]⟩

/-- Decidable equality of Except results, to evaluate concrete runs. -/
instance {ε α : Type} [DecidableEq ε] [DecidableEq α] :
    DecidableEq (Except ε α) := fun x y =>
  match x, y with
  | Except.error a, Except.error b =>
      if h : a = b then Decidable.isTrue (by rw [h])
      else Decidable.isFalse (by intro hc; cases hc; exact h rfl)
  | Except.ok a, Except.ok b =>
      if h : a = b then Decidable.isTrue (by rw [h])
      else Decidable.isFalse (by intro hc; cases hc; exact h rfl)
  | Except.error _, Except.ok _ => Decidable.isFalse (by intro hc; cases hc)
  | Except.ok _, Except.error _ => Decidable.isFalse (by intro hc; cases hc)

/-!  Helper lemmas about the data-frame embedding. -/

theorem find?_setColAux_self (cs : List (String × List Value)) (n : String)
    (vs : List Value) :
    (setColAux n vs cs).find? (fun c => c.1 == n) = some (n, vs) := by
  induction cs with
  | nil => simp [setColAux]
  | cons c rest ih =>
      by_cases h : (c.1 == n) = true
      · simp [setColAux, h, List.find?]
      · have hf : (c.1 == n) = false := by simpa using h
        simp [setColAux, hf, List.find?, ih]

theorem find?_setColAux_ne (cs : List (String × List Value)) (m n : String)
    (vs : List Value) (h : m ≠ n) :
    (setColAux n vs cs).find? (fun c => c.1 == m) =
      cs.find? (fun c => c.1 == m) := by
  have hnm : (n == m) = false := by simpa using Ne.symm h
  induction cs with
  | nil => simp [setColAux, List.find?, hnm]
  | cons c rest ih =>
      by_cases hc : (c.1 == n) = true
      · have hc1 : c.1 = n := by simpa using hc
        simp [setColAux, hc, List.find?, hc1, hnm]
      · have hf : (c.1 == n) = false := by simpa using hc
        by_cases hm : (c.1 == m) = true
        · simp [setColAux, hf, List.find?, hm]
        · have hmf : (c.1 == m) = false := by simpa using hm
          simp [setColAux, hf, List.find?, hmf, ih]

theorem getCol_setCol_self (df : DataFrame) (n : String) (vs : List Value) :
    (df.setCol n vs).getCol n = some vs := by
  unfold DataFrame.setCol DataFrame.getCol
  rw [find?_setColAux_self]
  rfl

theorem getCol_setCol_ne (df : DataFrame) (m n : String) (vs : List Value)
    (h : m ≠ n) : (df.setCol n vs).getCol m = df.getCol m := by
  unfold DataFrame.setCol DataFrame.getCol
  rw [find?_setColAux_ne _ _ _ _ h]

theorem setColAux_self (cs : List (String × List Value)) (n : String)
    (vs : List Value) (h : cs.find? (fun c => c.1 == n) = some (n, vs)) :
    setColAux n vs cs = cs := by
  induction cs with
  | nil => simp at h
  | cons c rest ih =>
      by_cases hc : (c.1 == n) = true
      · simp only [List.find?, hc] at h
        have hcn : c = (n, vs) := by simpa using h
        simp [setColAux, hc, hcn]
      · have hf : (c.1 == n) = false := by simpa using hc
        simp only [List.find?, hf] at h
        simp [setColAux, hf, ih h]

theorem setCol_id (df : DataFrame) (n : String) (vs : List Value)
    (h : df.getCol n = some vs) : df.setCol n vs = df := by
  unfold DataFrame.getCol at h
  obtain ⟨pr, hfind, hsnd⟩ := Option.map_eq_some'.mp h
  have hfst : pr.1 = n := by
    have := List.find?_some hfind
    simpa using this
  have : pr = (n, vs) := by
    cases pr
    simp_all
  unfold DataFrame.setCol
  rw [setColAux_self df.cols n vs (by rw [← this]; exact hfind)]

theorem map_fst_setColAux (cs : List (String × List Value)) (n : String)
    (vs : List Value) :
    (setColAux n vs cs).map Prod.fst =
      if n ∈ cs.map Prod.fst then cs.map Prod.fst
      else cs.map Prod.fst ++ [n] := by
  induction cs with
  | nil => simp [setColAux]
  | cons c rest ih =>
      by_cases hc : (c.1 == n) = true
      · have hc1 : c.1 = n := by simpa using hc
        simp [setColAux, hc, hc1]
      · have hf : c.1 ≠ n := by simpa using hc
        by_cases hm : n ∈ rest.map Prod.fst
        · simp [setColAux, hc, hm, ih, Ne.symm hf]
        · simp [setColAux, hc, hm, ih, Ne.symm hf]

theorem colNames_setCol_of_mem (df : DataFrame) (n : String) (vs : List Value)
    (h : n ∈ df.colNames) : (df.setCol n vs).colNames = df.colNames := by
  unfold DataFrame.setCol DataFrame.colNames at *
  rw [map_fst_setColAux, if_pos h]

theorem colNames_setCol_of_notMem (df : DataFrame) (n : String)
    (vs : List Value) (h : n ∉ df.colNames) :
    (df.setCol n vs).colNames = df.colNames ++ [n] := by
  unfold DataFrame.setCol DataFrame.colNames at *
  rw [map_fst_setColAux, if_neg h]

theorem getCol_none_iff (df : DataFrame) (n : String) :
    df.getCol n = none ↔ n ∉ df.colNames := by
  unfold DataFrame.getCol DataFrame.colNames
  simp only [Option.map_eq_none', List.find?_eq_none, List.mem_map]
  constructor
  · rintro h ⟨c, hc, hcn⟩
    exact h c hc (by simp [hcn])
  · intro h c hc hb
    exact h ⟨c, hc, by simpa using hb⟩

theorem getCol_mem (df : DataFrame) (n : String) (vs : List Value)
    (h : df.getCol n = some vs) : (n, vs) ∈ df.cols := by
  unfold DataFrame.getCol at h
  obtain ⟨pr, hfind, hsnd⟩ := Option.map_eq_some'.mp h
  have hfst : pr.1 = n := by simpa using List.find?_some hfind
  have hpr : pr = (n, vs) := by
    cases pr
    simp_all
  rw [← hpr]
  exact List.mem_of_find?_eq_some hfind

theorem getCol_some_of_mem_names (df : DataFrame) (n : String)
    (h : n ∈ df.colNames) : ∃ vs, df.getCol n = some vs := by
  cases hg : df.getCol n with
  | some vs => exact ⟨vs, rfl⟩
  | none => exact absurd ((getCol_none_iff df n).mp hg) (not_not_intro h)

theorem mapE_length {α β : Type} (f : α → Except String β) :
    ∀ l bs, mapE f l = Except.ok bs → bs.length = l.length := by
  intro l
  induction l with
  | nil =>
      intro bs h
      simp only [mapE] at h
      cases h
      rfl
  | cons a as ih =>
      intro bs h
      simp only [mapE] at h
      cases hfa : f a with
      | error e => rw [hfa] at h; cases h
      | ok b =>
          rw [hfa] at h
          cases hrec : mapE f as with
          | error e => rw [hrec] at h; cases h
          | ok bs0 =>
              rw [hrec] at h
              cases h
              simp [ih bs0 hrec]

theorem mapE_asNum_num (ds : List ℚ) :
    mapE Value.asNum (ds.map Value.num) = Except.ok ds := by
  induction ds with
  | nil => simp [mapE]
  | cons d rest ih => simp [mapE, Value.asNum, ih]

theorem mapE_parseCell_some (nm : String) (l : List ℚ) :
    mapE (parseCell nm) (l.map some) = Except.ok (l.map Value.num) := by
  induction l with
  | nil => simp [mapE]
  | cons q rest ih => simp [mapE, parseCell, ih]

theorem mapE_error_src {α β : Type} (f : α → Except String β) :
    ∀ (l : List α) (e : String), mapE f l = Except.error e →
      ∃ a ∈ l, f a = Except.error e := by
  intro l
  induction l with
  | nil =>
      intro e h
      simp [mapE] at h
  | cons a as ih =>
      intro e h
      simp only [mapE] at h
      cases hfa : f a with
      | error e0 =>
          rw [hfa] at h
          cases h
          exact ⟨a, by simp, hfa⟩
      | ok b =>
          rw [hfa] at h
          cases hrec : mapE f as with
          | error e0 =>
              rw [hrec] at h
              cases h
              obtain ⟨x, hx, hfx⟩ := ih _ hrec
              exact ⟨x, List.mem_cons_of_mem _ hx, hfx⟩
          | ok bs =>
              rw [hrec] at h
              cases h

theorem mapE_error_iff {α β : Type} (f : α → Except String β) (P : α → Prop)
    (emsg : String)
    (hf : ∀ a, (f a = Except.error emsg ↔ P a) ∧
      (¬ P a → ∃ b, f a = Except.ok b)) :
    ∀ l : List α, mapE f l = Except.error emsg ↔ ∃ a ∈ l, P a := by
  intro l
  induction l with
  | nil => simp [mapE]
  | cons a as ih =>
      by_cases hP : P a
      · have : f a = Except.error emsg := (hf a).1.mpr hP
        simp [mapE, this, hP]
      · obtain ⟨b, hb⟩ := (hf a).2 hP
        simp only [mapE, hb]
        cases hrec : mapE f as with
        | error e =>
            have hem : e = emsg := by
              obtain ⟨x, hx, hfx⟩ := mapE_error_src f as e hrec
              by_cases hPx : P x
              · have hx2 := (hf x).1.mpr hPx
                rw [hfx] at hx2
                cases hx2
                rfl
              · obtain ⟨bx, hbx⟩ := (hf x).2 hPx
                rw [hfx] at hbx
                cases hbx
            subst hem
            constructor
            · intro _
              obtain ⟨x, hx, hPx⟩ := ih.mp hrec
              exact ⟨x, List.mem_cons_of_mem _ hx, hPx⟩
            · intro _
              rfl
        | ok bs =>
            constructor
            · intro h
              cases h
            · intro h
              rcases h with ⟨x, hx, hPx⟩
              rcases List.mem_cons.mp hx with h1 | h2
              · exact absurd hPx (h1 ▸ hP)
              · rw [ih.mpr ⟨x, h2, hPx⟩] at hrec
                cases hrec

theorem geodesicKm_error_iff (gdist : ℚ × ℚ → ℚ × ℚ → ℚ) (a b : ℚ × ℚ) :
    (geodesicKm gdist a b = Except.error latitudeErrMsg ↔
      (90 < |a.1| ∨ 90 < |b.1|)) ∧
    (¬(90 < |a.1| ∨ 90 < |b.1|) → ∃ d, geodesicKm gdist a b = Except.ok d) := by
  unfold geodesicKm mkPoint
  by_cases ha : 90 < |a.1|
  · simp [ha]
  · by_cases hb : 90 < |b.1|
    · simp [ha, hb]
    · simp [ha, hb]

theorem computeDistCol_eq (gdist : ℚ × ℚ → ℚ × ℚ → ℚ) (df : DataFrame)
    (plat plng rlat rlng : List ℚ)
    (h1 : getNumCol df "poi_lat" = Except.ok plat)
    (h2 : getNumCol df "poi_lng" = Except.ok plng)
    (h3 : getNumCol df "receipt_lat" = Except.ok rlat)
    (h4 : getNumCol df "receipt_lng" = Except.ok rlng) :
    computeDistCol gdist df =
      mapE (fun pr => geodesicKm gdist pr.1 pr.2)
        ((plat.zip plng).zip (rlat.zip rlng)) := by
  unfold computeDistCol
  rw [h1, h2, h3, h4]

theorem compute_distances_ok_iff (gdist : ℚ × ℚ → ℚ × ℚ → ℚ)
    (df out : DataFrame) :
    compute_distances gdist df = Except.ok out ↔
      ∃ ds, computeDistCol gdist df = Except.ok ds ∧
        out = df.setCol "distance_km" (ds.map Value.num) := by
  unfold compute_distances
  cases h : computeDistCol gdist df with
  | error e =>
      constructor
      · intro hc
        cases hc
      · rintro ⟨ds, hds, _⟩
        cases hds
  | ok ds =>
      constructor
      · intro hc
        cases hc
        exact ⟨ds, rfl, rfl⟩
      · rintro ⟨ds2, hds2, hout⟩
        cases hds2
        rw [hout]

theorem estimate_emissions_eq (df : DataFrame) (ds : List ℚ)
    (h : getNumCol df "distance_km" = Except.ok ds) :
    estimate_emissions df =
      Except.ok
        ((((df.setCol "co2_kg"
              (ds.map fun d => Value.num (d * DIESEL_EMISSION_FACTOR))).setCol
            "suggest_ev" (ds.map fun d => Value.bool (decide (d < 10)))).setCol
          "ev_saving_kg"
          (ds.map fun d =>
            Value.num
              (d * (DIESEL_EMISSION_FACTOR - EV_EMISSION_FACTOR)))).setCol
        "ev_priority_score"
        (ds.map fun d => Value.num (score_ev_priority d))) := by
  unfold estimate_emissions
  rw [h]

theorem getNumCol_of_getCol_num (df : DataFrame) (n : String) (ds : List ℚ)
    (h : df.getCol n = some (ds.map Value.num)) :
    getNumCol df n = Except.ok ds := by
  unfold getNumCol
  rw [h]
  exact mapE_asNum_num ds

/-!  Lemmas evaluating the binary64 rounding model. -/

theorem int_log_eq (r : ℚ) (L : ℤ) (h0 : 0 < r) (h1 : (2 : ℚ) ^ L ≤ r)
    (h2 : r < (2 : ℚ) ^ (L + 1)) : Int.log 2 r = L := by
  have hb : (1 : ℕ) < 2 := by norm_num
  have ha : L ≤ Int.log 2 r := by
    rw [← Int.zpow_le_iff_le_log hb h0]
    push_cast
    exact h1
  have hc : Int.log 2 r < L + 1 := by
    rw [← Int.lt_zpow_iff_log_lt hb h0]
    push_cast
    exact h2
  omega

theorem roundHalfEven_eval (x : ℚ) (n : ℤ) (h1 : (n : ℚ) ≤ x)
    (h2 : x < n + 1) :
    roundHalfEven x =
      if x - n < 1 / 2 then n
      else if 1 / 2 < x - n then n + 1
      else if n % 2 = 0 then n else n + 1 := by
  have hf : ⌊x⌋ = n := by
    rw [Int.floor_eq_iff]
    constructor
    · exact h1
    · exact_mod_cast h2
  unfold roundHalfEven
  rw [hf]

theorem flRound_eval (x : ℚ) (L : ℤ) (hx : 0 < x) (hL1 : (2 : ℚ) ^ L ≤ x)
    (hL2 : x < (2 : ℚ) ^ (L + 1)) :
    flRound x =
      (roundHalfEven (x / 2 ^ (L - 52)) : ℚ) * 2 ^ (L - 52) := by
  unfold flRound
  rw [if_neg hx.ne', abs_of_pos hx, int_log_eq x L hx hL1 hL2,
    if_neg (not_lt.mpr hx.le), one_mul]

theorem dieselF64_val : dieselF64 = 7566047373982433 / 2 ^ 55 := by
  rw [dieselF64, show (0.21 : ℚ) = 21 / 100 by norm_num,
    flRound_eval (21 / 100) (-3) (by norm_num) (by norm_num) (by norm_num)]
  rw [show ((21 : ℚ) / 100 / 2 ^ ((-3 : ℤ) - 52)) = 21 * 2 ^ 55 / 100 by
    norm_num [zpow_sub₀]]
  rw [roundHalfEven_eval _ 7566047373982433 (by norm_num) (by norm_num)]
  rw [if_pos (by norm_num)]
  push_cast
  norm_num [zpow_sub₀]

theorem evF64_val : evF64 = 7205759403792794 / 2 ^ 57 := by
  rw [evF64, show (0.05 : ℚ) = 5 / 100 by norm_num,
    flRound_eval (5 / 100) (-5) (by norm_num) (by norm_num) (by norm_num)]
  rw [show ((5 : ℚ) / 100 / 2 ^ ((-5 : ℤ) - 52)) = 5 * 2 ^ 57 / 100 by
    norm_num [zpow_sub₀]]
  rw [roundHalfEven_eval _ 7205759403792793 (by norm_num) (by norm_num)]
  rw [if_neg (by norm_num), if_pos (by norm_num)]
  push_cast
  norm_num [zpow_sub₀]

theorem factorDiffF64_val :
    fl64sub dieselF64 evF64 = 5764607523034234 / 2 ^ 55 := by
  rw [fl64sub, dieselF64_val, evF64_val,
    show (7566047373982433 : ℚ) / 2 ^ 55 - 7205759403792794 / 2 ^ 57 =
      11529215046068469 / 2 ^ 56 by norm_num,
    flRound_eval (11529215046068469 / 2 ^ 56) (-3) (by norm_num) (by norm_num)
      (by norm_num)]
  rw [show ((11529215046068469 : ℚ) / 2 ^ 56 / 2 ^ ((-3 : ℤ) - 52)) =
      11529215046068469 / 2 by norm_num [zpow_sub₀]]
  rw [roundHalfEven_eval _ 5764607523034234 (by norm_num) (by norm_num)]
  rw [if_neg (by norm_num), if_neg (by norm_num), if_pos (by norm_num)]
  push_cast
  norm_num [zpow_sub₀]

theorem co2F64_12_val : co2F64 12 = 5674535530486825 / 2 ^ 51 := by
  rw [co2F64, fl64mul, dieselF64_val,
    show (12 : ℚ) * (7566047373982433 / 2 ^ 55) =
      22698142121947299 / 2 ^ 53 by norm_num,
    flRound_eval (22698142121947299 / 2 ^ 53) 1 (by norm_num) (by norm_num)
      (by norm_num)]
  rw [show ((22698142121947299 : ℚ) / 2 ^ 53 / 2 ^ ((1 : ℤ) - 52)) =
      22698142121947299 / 4 by norm_num [zpow_sub₀]]
  rw [roundHalfEven_eval _ 5674535530486824 (by norm_num) (by norm_num)]
  rw [if_neg (by norm_num), if_pos (by norm_num)]
  push_cast
  norm_num [zpow_sub₀]

theorem flRound_252_val : flRound 2.52 = 5674535530486825 / 2 ^ 51 := by
  rw [show (2.52 : ℚ) = 63 / 25 by norm_num,
    flRound_eval (63 / 25) 1 (by norm_num) (by norm_num) (by norm_num)]
  rw [show ((63 : ℚ) / 25 / 2 ^ ((1 : ℤ) - 52)) = 63 * 2 ^ 51 / 25 by
    norm_num [zpow_sub₀]]
  rw [roundHalfEven_eval _ 5674535530486824 (by norm_num) (by norm_num)]
  rw [if_neg (by norm_num), if_pos (by norm_num)]
  push_cast
  norm_num [zpow_sub₀]

theorem evSavingF64_12_val : evSavingF64 12 = 8646911284551351 / 2 ^ 52 := by
  rw [evSavingF64, fl64mul, factorDiffF64_val,
    show (12 : ℚ) * (5764607523034234 / 2 ^ 55) =
      8646911284551351 / 2 ^ 52 by norm_num,
    flRound_eval (8646911284551351 / 2 ^ 52) 0 (by norm_num) (by norm_num)
      (by norm_num)]
  rw [show ((8646911284551351 : ℚ) / 2 ^ 52 / 2 ^ ((0 : ℤ) - 52)) =
      8646911284551351 by norm_num [zpow_sub₀]]
  rw [roundHalfEven_eval _ 8646911284551351 (by norm_num) (by norm_num)]
  rw [if_pos (by norm_num)]
  push_cast
  norm_num [zpow_sub₀]

theorem flRound_192_val : flRound 1.92 = 8646911284551352 / 2 ^ 52 := by
  rw [show (1.92 : ℚ) = 48 / 25 by norm_num,
    flRound_eval (48 / 25) 0 (by norm_num) (by norm_num) (by norm_num)]
  rw [show ((48 : ℚ) / 25 / 2 ^ ((0 : ℤ) - 52)) = 48 * 2 ^ 52 / 25 by
    norm_num [zpow_sub₀]]
  rw [roundHalfEven_eval _ 8646911284551352 (by norm_num) (by norm_num)]
  rw [if_pos (by norm_num)]
  push_cast
  norm_num [zpow_sub₀]

theorem getCol_dfDist (ds : List ℚ) :
    (dfDist ds).getCol "distance_km" = some (ds.map Value.num) := by
  unfold dfDist DataFrame.getCol
  simp [List.find?]

theorem getCol_dfTrip (plat plng rlat rlng : ℚ) :
    (dfTrip plat plng rlat rlng).getCol "poi_lat" = some [Value.num plat] ∧
    (dfTrip plat plng rlat rlng).getCol "poi_lng" = some [Value.num plng] ∧
    (dfTrip plat plng rlat rlng).getCol "receipt_lat" =
      some [Value.num rlat] ∧
    (dfTrip plat plng rlat rlng).getCol "receipt_lng" =
      some [Value.num rlng] := by
  unfold dfTrip DataFrame.getCol
  refine ⟨?_, ?_, ?_, ?_⟩ <;> simp [List.find?]

theorem getNumCol_dfTrip (plat plng rlat rlng : ℚ) :
    getNumCol (dfTrip plat plng rlat rlng) "poi_lat" = Except.ok [plat] ∧
    getNumCol (dfTrip plat plng rlat rlng) "poi_lng" = Except.ok [plng] ∧
    getNumCol (dfTrip plat plng rlat rlng) "receipt_lat" =
      Except.ok [rlat] ∧
    getNumCol (dfTrip plat plng rlat rlng) "receipt_lng" =
      Except.ok [rlng] := by
  obtain ⟨h1, h2, h3, h4⟩ := getCol_dfTrip plat plng rlat rlng
  exact ⟨getNumCol_of_getCol_num _ _ [plat] h1,
    getNumCol_of_getCol_num _ _ [plng] h2,
    getNumCol_of_getCol_num _ _ [rlat] h3,
    getNumCol_of_getCol_num _ _ [rlng] h4⟩

/-!  Claim theorems. -/

/-- C5: for every trip, ev_priority_score equals the fixed ordered step
function of distance_km with first matching band winning and strict
exclusive upper bounds (below 5 gives 1.0, 5 to 10 gives 0.9, 10 to 15
gives 0.7, 15 to 20 gives 0.5, 20 to 30 gives 0.3, at least 30 gives
0.1); consequently the score is non-increasing in distance_km, lies in
the interval (0, 1] with floor 0.1, also at every band boundary and just
below it. -/
theorem C5_score_step_function (d d1 d2 : ℚ) (h : d1 ≤ d2) :
    (d < 5 → score_ev_priority d = 1) ∧
    (5 ≤ d → d < 10 → score_ev_priority d = 0.9) ∧
    (10 ≤ d → d < 15 → score_ev_priority d = 0.7) ∧
    (15 ≤ d → d < 20 → score_ev_priority d = 0.5) ∧
    (20 ≤ d → d < 30 → score_ev_priority d = 0.3) ∧
    (30 ≤ d → score_ev_priority d = 0.1) ∧
    score_ev_priority d2 ≤ score_ev_priority d1 ∧
    0 < score_ev_priority d ∧ 0.1 ≤ score_ev_priority d ∧
    score_ev_priority d ≤ 1 ∧
    score_ev_priority 4.999 = 1 ∧ score_ev_priority 5 = 0.9 ∧
    score_ev_priority 9.999 = 0.9 ∧ score_ev_priority 10 = 0.7 ∧
    score_ev_priority 14.999 = 0.7 ∧ score_ev_priority 15 = 0.5 ∧
    score_ev_priority 19.999 = 0.5 ∧ score_ev_priority 20 = 0.3 ∧
    score_ev_priority 29.999 = 0.3 ∧ score_ev_priority 30 = 0.1 := by
  refine ⟨?_, ?_, ?_, ?_, ?_, ?_, ?_, ?_, ?_, ?_, ?_, ?_, ?_, ?_, ?_, ?_,
    ?_, ?_, ?_, ?_⟩
  · intro h1
    unfold score_ev_priority
    split_ifs <;> linarith
  · intro h1 h2
    unfold score_ev_priority
    split_ifs <;> linarith
  · intro h1 h2
    unfold score_ev_priority
    split_ifs <;> linarith
  · intro h1 h2
    unfold score_ev_priority
    split_ifs <;> linarith
  · intro h1 h2
    unfold score_ev_priority
    split_ifs <;> linarith
  · intro h1
    unfold score_ev_priority
    split_ifs <;> linarith
  · unfold score_ev_priority
    split_ifs <;> linarith
  · unfold score_ev_priority
    split_ifs <;> norm_num
  · unfold score_ev_priority
    split_ifs <;> norm_num
  · unfold score_ev_priority
    split_ifs <;> norm_num
  · norm_num [score_ev_priority]
  · norm_num [score_ev_priority]
  · norm_num [score_ev_priority]
  · norm_num [score_ev_priority]
  · norm_num [score_ev_priority]
  · norm_num [score_ev_priority]
  · norm_num [score_ev_priority]
  · norm_num [score_ev_priority]
  · norm_num [score_ev_priority]
  · norm_num [score_ev_priority]

/-- Witness for C5 at concrete inputs: distance 12 scores 0.7 and the
score at 17 is at most the score at 12. -/
theorem C5_score_step_function_witness :
    score_ev_priority 12 = 0.7 ∧
    score_ev_priority 17 ≤ score_ev_priority 12 :=
  ⟨(C5_score_step_function 12 12 17 (by norm_num)).2.2.1 (by norm_num)
      (by norm_num),
    (C5_score_step_function 12 12 17 (by norm_num)).2.2.2.2.2.2.1⟩

/-- C6: for every trip, suggest_ev is true exactly when distance_km is
below 10, with the boundary exact: 10 itself gives false and 9.999 gives
true. -/
theorem C6_suggest_ev_iff (df : DataFrame) (ds : List ℚ)
    (h : getNumCol df "distance_km" = Except.ok ds) :
    (∃ out, estimate_emissions df = Except.ok out ∧
      out.getCol "suggest_ev" =
        some (ds.map fun d => Value.bool (decide (d < 10)))) ∧
    decide ((10 : ℚ) < 10) = false ∧ decide ((9.999 : ℚ) < 10) = true := by
  refine ⟨⟨_, estimate_emissions_eq df ds h, ?_⟩, ?_, ?_⟩
  · rw [getCol_setCol_ne _ _ _ _ (by decide),
      getCol_setCol_ne _ _ _ _ (by decide), getCol_setCol_self]
  · simp only [decide_eq_false_iff_not]
    norm_num
  · simp only [decide_eq_true_eq]
    norm_num

/-- Witness for C6 on a two-row frame with distances 10 and 9.999. -/
theorem C6_suggest_ev_iff_witness :
    getNumCol (dfDist [10, 9.999]) "distance_km" = Except.ok [10, 9.999] ∧
    (∃ out, estimate_emissions (dfDist [10, 9.999]) = Except.ok out ∧
      out.getCol "suggest_ev" =
        some [Value.bool false, Value.bool true]) := by
  have hyp : getNumCol (dfDist [10, 9.999]) "distance_km" =
      Except.ok [10, 9.999] :=
    getNumCol_of_getCol_num _ _ [10, 9.999] (getCol_dfDist [10, 9.999])
  refine ⟨hyp, ?_⟩
  obtain ⟨⟨out, ho, hc⟩, _⟩ := C6_suggest_ev_iff (dfDist [10, 9.999])
    [10, 9.999] hyp
  refine ⟨out, ho, ?_⟩
  rw [hc]
  norm_num

/-- C4 (amended): for every trip the code stores
co2_kg = distance_km * DIESEL_FACTOR and
ev_saving_kg = distance_km * (DIESEL_FACTOR - EV_FACTOR) with no explicit
rounding step; in exact arithmetic a distance of 12.0 gives 2.52 and
1.92, and under the binary64 arithmetic the code actually performs the
co2_kg comparison with 2.52 still holds, while ev_saving_kg evaluates to
8646911284551351 / 2^52, one ulp below the binary64 value of 1.92. -/
theorem C4_emission_formulas (df : DataFrame) (ds : List ℚ)
    (h : getNumCol df "distance_km" = Except.ok ds) :
    (∃ out, estimate_emissions df = Except.ok out ∧
      out.getCol "co2_kg" =
        some (ds.map fun d => Value.num (d * DIESEL_EMISSION_FACTOR)) ∧
      out.getCol "ev_saving_kg" =
        some (ds.map fun d =>
          Value.num (d * (DIESEL_EMISSION_FACTOR - EV_EMISSION_FACTOR)))) ∧
    (12 : ℚ) * DIESEL_EMISSION_FACTOR = 2.52 ∧
    (12 : ℚ) * (DIESEL_EMISSION_FACTOR - EV_EMISSION_FACTOR) = 1.92 ∧
    co2F64 12 = flRound 2.52 ∧
    evSavingF64 12 = 8646911284551351 / 2 ^ 52 ∧
    flRound 1.92 = 8646911284551352 / 2 ^ 52 := by
  refine ⟨⟨_, estimate_emissions_eq df ds h, ?_, ?_⟩, ?_, ?_, ?_, ?_, ?_⟩
  · rw [getCol_setCol_ne _ _ _ _ (by decide),
      getCol_setCol_ne _ _ _ _ (by decide),
      getCol_setCol_ne _ _ _ _ (by decide), getCol_setCol_self]
  · rw [getCol_setCol_ne _ _ _ _ (by decide), getCol_setCol_self]
  · norm_num [DIESEL_EMISSION_FACTOR]
  · norm_num [DIESEL_EMISSION_FACTOR, EV_EMISSION_FACTOR]
  · rw [co2F64_12_val, flRound_252_val]
  · exact evSavingF64_12_val
  · exact flRound_192_val

/-- Witness for C4 on a one-row frame with distance 12. -/
theorem C4_emission_formulas_witness :
    getNumCol (dfDist [12]) "distance_km" = Except.ok [12] ∧
    (∃ out, estimate_emissions (dfDist [12]) = Except.ok out ∧
      out.getCol "co2_kg" = some [Value.num 2.52] ∧
      out.getCol "ev_saving_kg" = some [Value.num 1.92]) := by
  have hyp : getNumCol (dfDist [12]) "distance_km" = Except.ok [12] :=
    getNumCol_of_getCol_num _ _ [12] (getCol_dfDist [12])
  refine ⟨hyp, ?_⟩
  obtain ⟨⟨out, ho, hc, he⟩, _⟩ := C4_emission_formulas (dfDist [12]) [12] hyp
  refine ⟨out, ho, ?_, ?_⟩
  · rw [hc]
    norm_num [DIESEL_EMISSION_FACTOR]
  · rw [he]
    norm_num [DIESEL_EMISSION_FACTOR, EV_EMISSION_FACTOR]

/-- C4 counterexample: under the binary64 arithmetic the code actually
performs, ev_saving_kg at distance 12.0 differs from 1.92, both as the
binary64 value of the literal and as the exact rational. -/
theorem C4_float_counterexample :
    evSavingF64 12 ≠ flRound 1.92 ∧ evSavingF64 12 ≠ (1.92 : ℚ) := by
  rw [evSavingF64_12_val, flRound_192_val]
  constructor <;> norm_num

theorem computeDistCol_ok_inv (gdist : ℚ × ℚ → ℚ × ℚ → ℚ) (df : DataFrame)
    (ds : List ℚ) (h : computeDistCol gdist df = Except.ok ds) :
    ∃ plat plng rlat rlng,
      getNumCol df "poi_lat" = Except.ok plat ∧
      getNumCol df "poi_lng" = Except.ok plng ∧
      getNumCol df "receipt_lat" = Except.ok rlat ∧
      getNumCol df "receipt_lng" = Except.ok rlng ∧
      mapE (fun pr => geodesicKm gdist pr.1 pr.2)
        ((plat.zip plng).zip (rlat.zip rlng)) = Except.ok ds := by
  unfold computeDistCol at h
  cases ha : getNumCol df "poi_lat" with
  | error e => rw [ha] at h; cases h
  | ok plat =>
      rw [ha] at h
      cases hb : getNumCol df "poi_lng" with
      | error e => rw [hb] at h; cases h
      | ok plng =>
          rw [hb] at h
          cases hc : getNumCol df "receipt_lat" with
          | error e => rw [hc] at h; cases h
          | ok rlat =>
              rw [hc] at h
              cases hd : getNumCol df "receipt_lng" with
              | error e => rw [hd] at h; cases h
              | ok rlng =>
                  rw [hd] at h
                  exact ⟨plat, plng, rlat, rlng, rfl, rfl, rfl, rfl, h⟩

/-- C2 (amended): when some trip of the collection has a latitude outside
-90..90 the Distance Calculator fails, aborting the whole batch with no
output table, but the error is the generic geopy ValueError whose fixed
message does not identify the offending trip index; out-of-range
longitudes do not fail at all (they are silently normalized). -/
theorem C2_latitude_range (gdist : ℚ × ℚ → ℚ × ℚ → ℚ) (df : DataFrame)
    (plat plng rlat rlng : List ℚ)
    (h1 : getNumCol df "poi_lat" = Except.ok plat)
    (h2 : getNumCol df "poi_lng" = Except.ok plng)
    (h3 : getNumCol df "receipt_lat" = Except.ok rlat)
    (h4 : getNumCol df "receipt_lng" = Except.ok rlng) :
    compute_distances gdist df = Except.error latitudeErrMsg ↔
      ∃ pr ∈ (plat.zip plng).zip (rlat.zip rlng),
        90 < |pr.1.1| ∨ 90 < |pr.2.1| := by
  have hmap : mapE (fun pr : (ℚ × ℚ) × (ℚ × ℚ) => geodesicKm gdist pr.1 pr.2)
        ((plat.zip plng).zip (rlat.zip rlng)) = Except.error latitudeErrMsg ↔
      ∃ pr ∈ (plat.zip plng).zip (rlat.zip rlng),
        90 < |pr.1.1| ∨ 90 < |pr.2.1| :=
    mapE_error_iff (fun pr : (ℚ × ℚ) × (ℚ × ℚ) => geodesicKm gdist pr.1 pr.2)
      (fun pr : (ℚ × ℚ) × (ℚ × ℚ) => 90 < |pr.1.1| ∨ 90 < |pr.2.1|)
      latitudeErrMsg
      (fun pr : (ℚ × ℚ) × (ℚ × ℚ) => geodesicKm_error_iff gdist pr.1 pr.2)
      ((plat.zip plng).zip (rlat.zip rlng))
  unfold compute_distances
  rw [computeDistCol_eq gdist df plat plng rlat rlng h1 h2 h3 h4]
  cases hm : mapE
      (fun pr : (ℚ × ℚ) × (ℚ × ℚ) => geodesicKm gdist pr.1 pr.2)
      ((plat.zip plng).zip (rlat.zip rlng)) with
  | error e =>
      rw [hm] at hmap
      constructor
      · intro he
        injection he with he2
        exact hmap.mp (by rw [he2])
      · intro hex
        have hq := hmap.mpr hex
        injection hq with hq2
        rw [hq2]
  | ok ds =>
      rw [hm] at hmap
      constructor
      · intro he
        cases he
      · intro hex
        cases hmap.mpr hex

/-- Witness for C2: a one-row collection with latitude 95 makes
compute_distances fail with the fixed geopy latitude message. -/
theorem C2_latitude_range_witness :
    getNumCol (dfTrip 95 10 37 (-122)) "poi_lat" = Except.ok [95] ∧
    getNumCol (dfTrip 95 10 37 (-122)) "poi_lng" = Except.ok [10] ∧
    getNumCol (dfTrip 95 10 37 (-122)) "receipt_lat" = Except.ok [37] ∧
    getNumCol (dfTrip 95 10 37 (-122)) "receipt_lng" = Except.ok [-122] ∧
    compute_distances gdistZero (dfTrip 95 10 37 (-122)) =
      Except.error latitudeErrMsg := by
  obtain ⟨h1, h2, h3, h4⟩ := getNumCol_dfTrip 95 10 37 (-122)
  refine ⟨h1, h2, h3, h4, ?_⟩
  refine (C2_latitude_range gdistZero _ [95] [10] [37] [-122] h1 h2 h3
    h4).mpr ⟨((95, 10), (37, -122)), by simp [List.zip], ?_⟩
  left
  rw [show |((((95 : ℚ), (10 : ℚ)), ((37 : ℚ), (-122 : ℚ))).1.1)| = 95 by
    norm_num [abs]]
  norm_num

/-- C2 counterexample: a one-row collection whose longitude 200 lies far
outside -180..180 does not fail at all; compute_distances produces an
output table for it. -/
theorem C2_longitude_counterexample :
    (compute_distances gdistZero (dfTrip 37 200 37 (-122))).isOk = true := by
  obtain ⟨h1, h2, h3, h4⟩ := getNumCol_dfTrip 37 200 37 (-122)
  unfold compute_distances
  rw [computeDistCol_eq gdistZero _ [37] [200] [37] [-122] h1 h2 h3 h4]
  simp only [List.zip_cons_cons, List.zip_nil_right, mapE, geodesicKm,
    mkPoint]
  norm_num [latitudeErrMsg]
  rfl

/-- C9: the Distance Calculator and the Emissions Estimator are
idempotent pure enrichments: running both again over a collection already
enriched by them returns exactly that collection. -/
theorem C9_idempotent (gdist : ℚ × ℚ → ℚ × ℚ → ℚ) (df d1 d2 : DataFrame)
    (h1 : compute_distances gdist df = Except.ok d1)
    (h2 : estimate_emissions d1 = Except.ok d2) :
    compute_distances gdist d2 = Except.ok d2 ∧
    estimate_emissions d2 = Except.ok d2 := by
  obtain ⟨ds, hds, hd1⟩ := (compute_distances_ok_iff gdist df d1).mp h1
  subst hd1
  obtain ⟨plat, plng, rlat, rlng, ha, hb, hc, hd, hmap⟩ :=
    computeDistCol_ok_inv gdist df ds hds
  have hnum1 : getNumCol (df.setCol "distance_km" (ds.map Value.num))
      "distance_km" = Except.ok ds :=
    getNumCol_of_getCol_num _ _ ds (getCol_setCol_self df _ _)
  have h2' := estimate_emissions_eq _ ds hnum1
  rw [h2'] at h2
  injection h2 with h2e
  subst h2e
  set C := ds.map fun d => Value.num (d * DIESEL_EMISSION_FACTOR) with hC
  set S := ds.map fun d => Value.bool (decide (d < 10)) with hS
  set V := ds.map fun d =>
    Value.num (d * (DIESEL_EMISSION_FACTOR - EV_EMISSION_FACTOR)) with hV
  set P := ds.map fun d => Value.num (score_ev_priority d) with hP
  set D := ds.map Value.num with hD
  set d2 := ((((df.setCol "distance_km" D).setCol "co2_kg" C).setCol
    "suggest_ev" S).setCol "ev_saving_kg" V).setCol "ev_priority_score" P
    with hd2
  have hgdist : d2.getCol "distance_km" = some D := by
    rw [hd2, getCol_setCol_ne _ _ _ _ (by decide),
      getCol_setCol_ne _ _ _ _ (by decide),
      getCol_setCol_ne _ _ _ _ (by decide),
      getCol_setCol_ne _ _ _ _ (by decide), getCol_setCol_self]
  have hgco2 : d2.getCol "co2_kg" = some C := by
    rw [hd2, getCol_setCol_ne _ _ _ _ (by decide),
      getCol_setCol_ne _ _ _ _ (by decide),
      getCol_setCol_ne _ _ _ _ (by decide), getCol_setCol_self]
  have hgsug : d2.getCol "suggest_ev" = some S := by
    rw [hd2, getCol_setCol_ne _ _ _ _ (by decide),
      getCol_setCol_ne _ _ _ _ (by decide), getCol_setCol_self]
  have hgsav : d2.getCol "ev_saving_kg" = some V := by
    rw [hd2, getCol_setCol_ne _ _ _ _ (by decide), getCol_setCol_self]
  have hgsc : d2.getCol "ev_priority_score" = some P := by
    rw [hd2, getCol_setCol_self]
  have hcoord : ∀ m : String, m ≠ "distance_km" → m ≠ "co2_kg" →
      m ≠ "suggest_ev" → m ≠ "ev_saving_kg" → m ≠ "ev_priority_score" →
      d2.getCol m = df.getCol m := by
    intro m hm1 hm2 hm3 hm4 hm5
    rw [hd2, getCol_setCol_ne _ _ _ _ hm5, getCol_setCol_ne _ _ _ _ hm4,
      getCol_setCol_ne _ _ _ _ hm3, getCol_setCol_ne _ _ _ _ hm2,
      getCol_setCol_ne _ _ _ _ hm1]
  have hnum2 : ∀ m : String, m ≠ "distance_km" → m ≠ "co2_kg" →
      m ≠ "suggest_ev" → m ≠ "ev_saving_kg" → m ≠ "ev_priority_score" →
      getNumCol d2 m = getNumCol df m := by
    intro m hm1 hm2 hm3 hm4 hm5
    unfold getNumCol
    rw [hcoord m hm1 hm2 hm3 hm4 hm5]
  have hcd2 : computeDistCol gdist d2 = Except.ok ds := by
    rw [computeDistCol_eq gdist d2 plat plng rlat rlng
      (by rw [hnum2 _ (by decide) (by decide) (by decide) (by decide)
        (by decide)]; exact ha)
      (by rw [hnum2 _ (by decide) (by decide) (by decide) (by decide)
        (by decide)]; exact hb)
      (by rw [hnum2 _ (by decide) (by decide) (by decide) (by decide)
        (by decide)]; exact hc)
      (by rw [hnum2 _ (by decide) (by decide) (by decide) (by decide)
        (by decide)]; exact hd)]
    exact hmap
  constructor
  · unfold compute_distances
    rw [hcd2]
    have hgd : d2.getCol "distance_km" = some (List.map Value.num ds) := by
      rw [hgdist, hD]
    exact congrArg Except.ok (setCol_id d2 _ _ hgd)
  · have hnumd2 : getNumCol d2 "distance_km" = Except.ok ds := by
      unfold getNumCol
      rw [hgdist, hD]
      exact mapE_asNum_num ds
    rw [estimate_emissions_eq d2 ds hnumd2, ← hC, ← hS, ← hV, ← hP,
      setCol_id d2 _ C hgco2]
    rw [setCol_id d2 _ S hgsug, setCol_id d2 _ V hgsav,
      setCol_id d2 _ P hgsc]

/-- Witness for C9 on the degenerate all-zero one-row collection: both
stages run, and re-running both returns the enriched frame unchanged. -/
theorem C9_idempotent_witness :
    compute_distances gdistZero (dfTrip 0 0 0 0) =
      Except.ok dfTripZeroDist ∧
    estimate_emissions dfTripZeroDist = Except.ok dfTripZeroFull ∧
    compute_distances gdistZero dfTripZeroFull =
      Except.ok dfTripZeroFull ∧
    estimate_emissions dfTripZeroFull = Except.ok dfTripZeroFull := by
  have h1 : compute_distances gdistZero (dfTrip 0 0 0 0) =
      Except.ok dfTripZeroDist := by
    obtain ⟨ha, hb, hc, hd⟩ := getNumCol_dfTrip 0 0 0 0
    unfold compute_distances
    rw [computeDistCol_eq gdistZero _ [0] [0] [0] [0] ha hb hc hd]
    simp only [List.zip_cons_cons, List.zip_nil_right, mapE, geodesicKm,
      mkPoint, gdistZero]
    norm_num
    unfold dfTrip DataFrame.setCol dfTripZeroDist
    simp only [setColAux]
    decide
  have h2 : estimate_emissions dfTripZeroDist = Except.ok dfTripZeroFull := by
    have hg : dfTripZeroDist.getCol "distance_km" =
        some ([(0 : ℚ)].map Value.num) := by
      unfold dfTripZeroDist DataFrame.getCol
      simp [List.find?]
    have hn := getNumCol_of_getCol_num _ _ [0] hg
    rw [estimate_emissions_eq _ [0] hn]
    unfold dfTripZeroDist DataFrame.setCol dfTripZeroFull
    norm_num [setColAux, DIESEL_EMISSION_FACTOR, EV_EMISSION_FACTOR,
      score_ev_priority]
    decide
  obtain ⟨hA, hB⟩ := C9_idempotent gdistZero (dfTrip 0 0 0 0)
    dfTripZeroDist dfTripZeroFull h1 h2
  exact ⟨h1, h2, hA, hB⟩

theorem read_csv_mkSource (pl pg rl rg : List ℚ) (n : Nat) :
    read_csv (mkSource pl pg rl rg) requiredCols n =
      Except.ok ⟨[("poi_lat", (pl.take n).map Value.num),
        ("poi_lng", (pg.take n).map Value.num),
        ("receipt_lat", (rl.take n).map Value.num),
        ("receipt_lng", (rg.take n).map Value.num)]⟩ := by
  unfold read_csv mkSource requiredCols
  rw [if_pos (by simp)]
  simp only [List.filter, List.map, mapE]
  norm_num [← List.map_take, mapE_parseCell_some]

theorem load_mkSource (pl pg rl rg : List ℚ) (path : String) (n : Nat) :
    load_delivery_data (some (mkSource pl pg rl rg)) path n =
      Except.ok
        ⟨[("poi_lat", (pl.take n).map fun q => Value.num (q / 1000000)),
          ("poi_lng", (pg.take n).map fun q => Value.num (q / 1000000)),
          ("receipt_lat", (rl.take n).map fun q => Value.num (q / 1000000)),
          ("receipt_lng",
            (rg.take n).map fun q => Value.num (q / 1000000))]⟩ := by
  unfold load_delivery_data
  simp only [read_csv_mkSource]
  simp [convertCols, requiredCols, DataFrame.getCol, DataFrame.setCol,
    List.find?, setColAux, divMicro, Function.comp_def]

theorem loadCity : load_delivery_data (some srcCity)
    "data/raw/delivery_five_cities.csv" 100000 =
    Except.ok (dfTrip 37 (-122) 37.1 (-122.1)) := by
  have hrc : read_csv srcCity requiredCols 100000 =
      Except.ok ⟨[("poi_lat", [Value.num 37000000]),
        ("poi_lng", [Value.num (-122000000)]),
        ("receipt_lat", [Value.num 37100000]),
        ("receipt_lng", [Value.num (-122100000)])]⟩ := by
    unfold read_csv srcCity requiredCols
    rw [if_pos (by decide)]
    simp [List.filter, mapE, parseCell, List.take_of_length_le]
  unfold load_delivery_data
  simp only [hrc]
  simp [convertCols, requiredCols, DataFrame.getCol, DataFrame.setCol,
    List.find?, setColAux, divMicro, dfTrip]
  norm_num

/-- C7: the Coordinate Loader converts each of the four coordinate
columns from microdegrees to decimal degrees by dividing every raw value
by 1000000, loads at most the requested number of rows, and in particular
raw 37000000 and -122000000 decode to exactly 37 and -122. -/
theorem C7_loader_microdegrees (pl pg rl rg : List ℚ) (path : String)
    (n : Nat) :
    (∃ df, load_delivery_data (some (mkSource pl pg rl rg)) path n =
        Except.ok df ∧
      df.getCol "poi_lat" =
        some ((pl.take n).map fun q => Value.num (q / 1000000)) ∧
      df.getCol "poi_lng" =
        some ((pg.take n).map fun q => Value.num (q / 1000000)) ∧
      df.getCol "receipt_lat" =
        some ((rl.take n).map fun q => Value.num (q / 1000000)) ∧
      df.getCol "receipt_lng" =
        some ((rg.take n).map fun q => Value.num (q / 1000000)) ∧
      (∀ c vs, df.getCol c = some vs → vs.length ≤ n)) ∧
    (37000000 : ℚ) / 1000000 = 37 ∧
    (-122000000 : ℚ) / 1000000 = -122 := by
  refine ⟨⟨_, load_mkSource pl pg rl rg path n, ?_, ?_, ?_, ?_, ?_⟩,
    by norm_num, by norm_num⟩
  · unfold DataFrame.getCol
    simp [List.find?]
  · unfold DataFrame.getCol
    simp [List.find?]
  · unfold DataFrame.getCol
    simp [List.find?]
  · unfold DataFrame.getCol
    simp [List.find?]
  · intro c vs h
    unfold DataFrame.getCol at h
    by_cases h1 : ("poi_lat" == c) = true
    · simp [List.find?, h1] at h
      rw [← h]
      simp [List.length_take_le]
    · by_cases h2 : ("poi_lng" == c) = true
      · simp [List.find?, h1, h2] at h
        rw [← h]
        simp [List.length_take_le]
      · by_cases h3 : ("receipt_lat" == c) = true
        · simp [List.find?, h1, h2, h3] at h
          rw [← h]
          simp [List.length_take_le]
        · by_cases h4 : ("receipt_lng" == c) = true
          · simp [List.find?, h1, h2, h3, h4] at h
            rw [← h]
            simp [List.length_take_le]
          · simp [List.find?, h1, h2, h3, h4] at h

/-- Witness for C7: raw microdegree values 37000000 and -122000000 decode
to exactly 37 and -122 through the loader. -/
theorem C7_loader_microdegrees_witness :
    ∃ df, load_delivery_data
        (some (mkSource [37000000] [-122000000] [37100000] [-122100000]))
        "data/raw/delivery_five_cities.csv" 100000 = Except.ok df ∧
      df.getCol "poi_lat" = some [Value.num 37] ∧
      df.getCol "poi_lng" = some [Value.num (-122)] := by
  obtain ⟨⟨df, hload, hplat, hplng, hx1, hx2, hx3⟩, hq1, hq2⟩ :=
    C7_loader_microdegrees [37000000] [-122000000] [37100000] [-122100000]
      "data/raw/delivery_five_cities.csv" 100000
  refine ⟨df, hload, ?_, ?_⟩
  · rw [hplat]
    norm_num [List.take_of_length_le]
  · rw [hplng]
    norm_num [List.take_of_length_le]

/-- C3 (amended): the code has no ConfigurationError and performs no
configuration validation; the emission factors are fixed module constants
that do satisfy EV strictly below DIESEL, and a non-positive row limit is
not rejected: loading with row limit 0 succeeds and yields an empty
table. -/
theorem C3_no_config_validation (pl pg rl rg : List ℚ) (path : String) :
    EV_EMISSION_FACTOR < DIESEL_EMISSION_FACTOR ∧
    load_delivery_data (some (mkSource pl pg rl rg)) path 0 =
      Except.ok ⟨[("poi_lat", []), ("poi_lng", []), ("receipt_lat", []),
        ("receipt_lng", [])]⟩ := by
  refine ⟨by norm_num [EV_EMISSION_FACTOR, DIESEL_EMISSION_FACTOR], ?_⟩
  rw [load_mkSource]
  simp

/-- C3 counterexample: a configuration with row limit 0 (not a positive
integer) is not rejected; the loader runs and produces a table. -/
theorem C3_counterexample :
    (load_delivery_data (some (mkSource [1] [2] [3] [4])) "p" 0).isOk =
      true := by
  rw [load_mkSource [1] [2] [3] [4] "p" 0]
  rfl

/-- C8: the Coordinate Loader fails with the re-raised FileNotFoundError
exactly when the source does not exist, and wraps any other read failure
in a generic exception carrying the original message; in both cases the
result is an error, never a partial table. -/
theorem C8_load_errors (fs : Option SourceTable) (path : String)
    (n : Nat) :
    (∀ m, load_delivery_data fs path n =
        Except.error (LoadErr.notFound m) ↔
      (fs = none ∧ m = "File not found at: " ++ path)) ∧
    (∀ src e, fs = some src →
      read_csv src requiredCols n = Except.error e →
      load_delivery_data fs path n =
        Except.error
          (LoadErr.loadError ("Error reading delivery data: " ++ e))) := by
  constructor
  · intro m
    cases fs with
    | none =>
        unfold load_delivery_data
        constructor
        · intro h
          injection h with h2
          injection h2 with h3
          exact ⟨rfl, h3.symm⟩
        · rintro ⟨_, rfl⟩
          rfl
    | some src =>
        unfold load_delivery_data
        constructor
        · intro h
          cases hr : read_csv src requiredCols n with
          | error e =>
              simp only [hr] at h
              injection h with h2
              cases h2
          | ok df0 =>
              simp only [hr] at h
              cases hcv : convertCols df0 requiredCols with
              | error e =>
                  simp only [hcv] at h
                  injection h with h2
                  cases h2
              | ok df =>
                  simp only [hcv] at h
                  cases h
        · rintro ⟨hfs, _⟩
          cases hfs
  · intro src e hfs hread
    subst hfs
    unfold load_delivery_data
    simp only [hread]

/-- Witness for C8: a source missing three required columns is wrapped in
the generic load error carrying the reader message, and a missing file
gives the FileNotFoundError message. -/
theorem C8_load_errors_witness :
    read_csv srcMissing requiredCols 5 =
      Except.error
        "Usecols do not match columns, columns expected but not found" ∧
    load_delivery_data (some srcMissing)
        "data/raw/delivery_five_cities.csv" 5 =
      Except.error (LoadErr.loadError
        ("Error reading delivery data: " ++
          "Usecols do not match columns, columns expected but not found")) ∧
    load_delivery_data none "data/raw/delivery_five_cities.csv" 5 =
      Except.error (LoadErr.notFound
        ("File not found at: " ++ "data/raw/delivery_five_cities.csv")) := by
  have hread : read_csv srcMissing requiredCols 5 =
      Except.error
        "Usecols do not match columns, columns expected but not found" := by
    unfold read_csv srcMissing requiredCols
    rw [if_neg (by decide)]
  refine ⟨hread,
    (C8_load_errors (some srcMissing) "data/raw/delivery_five_cities.csv"
        5).2 srcMissing _ rfl hread,
    ((C8_load_errors none "data/raw/delivery_five_cities.csv" 5).1 _).mpr
      ⟨rfl, rfl⟩⟩

/-- C1 counterexample: loading a source that carries a city column next
to the four coordinate columns and running the full pipeline yields an
output table with no city column at all, because the loader reads only
the four coordinate columns. -/
theorem C1_city_dropped_counterexample :
    (appPipeline gdistZero (some srcCity)
        "data/raw/delivery_five_cities.csv" 100000).map
      (fun df => (df.getCol "city").isSome) = Except.ok false := by
  have hcd : compute_distances gdistZero (dfTrip 37 (-122) 37.1 (-122.1)) =
      Except.ok dfC1Dist := by
    obtain ⟨ha, hb, hc, hd⟩ := getNumCol_dfTrip 37 (-122) 37.1 (-122.1)
    unfold compute_distances
    rw [computeDistCol_eq gdistZero _ [37] [-122] [37.1] [-122.1] ha hb hc
      hd]
    simp only [List.zip_cons_cons, List.zip_nil_right, mapE, geodesicKm,
      mkPoint, gdistZero]
    norm_num [abs_of_pos, abs_of_neg]
    unfold dfTrip DataFrame.setCol dfC1Dist
    norm_num [setColAux]
    simp
  have hee : estimate_emissions dfC1Dist = Except.ok dfC1Full := by
    have hg : dfC1Dist.getCol "distance_km" =
        some ([(0 : ℚ)].map Value.num) := by
      unfold dfC1Dist DataFrame.getCol
      simp [List.find?]
    have hn := getNumCol_of_getCol_num _ _ [0] hg
    rw [estimate_emissions_eq _ [0] hn]
    unfold dfC1Dist DataFrame.setCol dfC1Full
    norm_num [setColAux, DIESEL_EMISSION_FACTOR, EV_EMISSION_FACTOR,
      score_ev_priority]
    simp
  unfold appPipeline
  simp only [loadCity, hcd, hee]
  simp [DataFrame.getCol, dfC1Full, List.find?, Except.map]

/-- C1 (amended): the loader reads only the four coordinate columns, so
extra source columns such as city are dropped there; the two enrichment
stages themselves pass every column of their input through unmodified and
append exactly the five derived columns at the end, each with one value
per input row. -/
theorem C1_passthrough (gdist : ℚ × ℚ → ℚ × ℚ → ℚ) (df d1 d2 : DataFrame)
    (n : Nat) (hwf : ∀ c ∈ df.cols, (c : String × List Value).2.length = n)
    (hfresh : ∀ c ∈ derivedCols, df.getCol c = none)
    (h1 : compute_distances gdist df = Except.ok d1)
    (h2 : estimate_emissions d1 = Except.ok d2) :
    d2.colNames = df.colNames ++ derivedCols ∧
    (∀ c, c ∉ derivedCols → d2.getCol c = df.getCol c) ∧
    (∀ c ∈ derivedCols, ∃ vs, d2.getCol c = some vs ∧ vs.length = n) := by
  obtain ⟨ds, hds, hd1⟩ := (compute_distances_ok_iff gdist df d1).mp h1
  subst hd1
  obtain ⟨plat, plng, rlat, rlng, ha, hb, hc, hd, hmap⟩ :=
    computeDistCol_ok_inv gdist df ds hds
  have hlen : ∀ (name : String) (l : List ℚ),
      getNumCol df name = Except.ok l → l.length = n := by
    intro name l h
    unfold getNumCol at h
    cases hg : df.getCol name with
    | none => rw [hg] at h; cases h
    | some vs =>
        rw [hg] at h
        have h5 := mapE_length Value.asNum vs l h
        have h6 := hwf (name, vs) (getCol_mem df name vs hg)
        rw [h5]
        exact h6
  have hdsn : ds.length = n := by
    have h7 := mapE_length _ _ _ hmap
    rw [h7]
    simp [List.length_zip, hlen _ _ ha, hlen _ _ hb, hlen _ _ hc,
      hlen _ _ hd]
  have hf1 : "distance_km" ∉ df.colNames :=
    (getCol_none_iff df _).mp (hfresh _ (by simp [derivedCols]))
  have hf2 : "co2_kg" ∉ df.colNames :=
    (getCol_none_iff df _).mp (hfresh _ (by simp [derivedCols]))
  have hf3 : "suggest_ev" ∉ df.colNames :=
    (getCol_none_iff df _).mp (hfresh _ (by simp [derivedCols]))
  have hf4 : "ev_saving_kg" ∉ df.colNames :=
    (getCol_none_iff df _).mp (hfresh _ (by simp [derivedCols]))
  have hf5 : "ev_priority_score" ∉ df.colNames :=
    (getCol_none_iff df _).mp (hfresh _ (by simp [derivedCols]))
  have hnum1 : getNumCol (df.setCol "distance_km" (ds.map Value.num))
      "distance_km" = Except.ok ds :=
    getNumCol_of_getCol_num _ _ ds (getCol_setCol_self df _ _)
  have h2' := estimate_emissions_eq _ ds hnum1
  rw [h2'] at h2
  injection h2 with h2e
  subst h2e
  set C := ds.map fun d => Value.num (d * DIESEL_EMISSION_FACTOR) with hC
  set S := ds.map fun d => Value.bool (decide (d < 10)) with hS
  set V := ds.map fun d =>
    Value.num (d * (DIESEL_EMISSION_FACTOR - EV_EMISSION_FACTOR)) with hV
  set P := ds.map fun d => Value.num (score_ev_priority d) with hP
  set D := ds.map Value.num with hD
  set t1 := df.setCol "distance_km" D with ht1
  set t2 := t1.setCol "co2_kg" C with ht2
  set t3 := t2.setCol "suggest_ev" S with ht3
  set t4 := t3.setCol "ev_saving_kg" V with ht4
  have hn1 : t1.colNames = df.colNames ++ ["distance_km"] :=
    colNames_setCol_of_notMem df _ _ hf1
  have hn2 : t2.colNames = t1.colNames ++ ["co2_kg"] :=
    colNames_setCol_of_notMem t1 _ _ (by rw [hn1]; simp [hf2])
  have hn3 : t3.colNames = t2.colNames ++ ["suggest_ev"] :=
    colNames_setCol_of_notMem t2 _ _ (by rw [hn2, hn1]; simp [hf3])
  have hn4 : t4.colNames = t3.colNames ++ ["ev_saving_kg"] :=
    colNames_setCol_of_notMem t3 _ _ (by rw [hn3, hn2, hn1]; simp [hf4])
  have hn5 : (t4.setCol "ev_priority_score" P).colNames =
      t4.colNames ++ ["ev_priority_score"] :=
    colNames_setCol_of_notMem t4 _ _
      (by rw [hn4, hn3, hn2, hn1]; simp [hf5])
  refine ⟨?_, ?_, ?_⟩
  · rw [hn5, hn4, hn3, hn2, hn1]
    simp [derivedCols]
  · intro c hcd
    simp only [derivedCols, List.mem_cons, List.mem_singleton,
      not_or, List.not_mem_nil] at hcd
    obtain ⟨hc1, hc2, hc3, hc4, hc5, -⟩ := hcd
    rw [getCol_setCol_ne _ _ _ _ hc5, ht4, getCol_setCol_ne _ _ _ _ hc4,
      ht3, getCol_setCol_ne _ _ _ _ hc3, ht2,
      getCol_setCol_ne _ _ _ _ hc2, ht1, getCol_setCol_ne _ _ _ _ hc1]
  · intro c hcmem
    have hlD : D.length = n := by rw [hD]; simp [hdsn]
    have hlC : C.length = n := by rw [hC]; simp [hdsn]
    have hlS : S.length = n := by rw [hS]; simp [hdsn]
    have hlV : V.length = n := by rw [hV]; simp [hdsn]
    have hlP : P.length = n := by rw [hP]; simp [hdsn]
    simp only [derivedCols, List.mem_cons, List.not_mem_nil,
      List.mem_singleton] at hcmem
    rcases hcmem with rfl | rfl | rfl | rfl | rfl | hfalse
    · refine ⟨D, ?_, hlD⟩
      rw [getCol_setCol_ne _ _ _ _ (by decide), ht4,
        getCol_setCol_ne _ _ _ _ (by decide), ht3,
        getCol_setCol_ne _ _ _ _ (by decide), ht2,
        getCol_setCol_ne _ _ _ _ (by decide), ht1, getCol_setCol_self]
    · refine ⟨C, ?_, hlC⟩
      rw [getCol_setCol_ne _ _ _ _ (by decide), ht4,
        getCol_setCol_ne _ _ _ _ (by decide), ht3,
        getCol_setCol_ne _ _ _ _ (by decide), ht2, getCol_setCol_self]
    · refine ⟨S, ?_, hlS⟩
      rw [getCol_setCol_ne _ _ _ _ (by decide), ht4,
        getCol_setCol_ne _ _ _ _ (by decide), ht3, getCol_setCol_self]
    · refine ⟨V, ?_, hlV⟩
      rw [getCol_setCol_ne _ _ _ _ (by decide), ht4, getCol_setCol_self]
    · exact ⟨P, getCol_setCol_self _ _ _, hlP⟩
    · cases hfalse

/-- Witness for C1 on a one-row in-memory frame that carries a city
column: both stages succeed, the city column passes through the stages
unmodified, and the five derived columns are appended. -/
theorem C1_passthrough_witness :
    (∀ c ∈ dfCity.cols, (c : String × List Value).2.length = 1) ∧
    (∀ c ∈ derivedCols, dfCity.getCol c = none) ∧
    compute_distances gdistZero dfCity = Except.ok dfCityDist ∧
    estimate_emissions dfCityDist = Except.ok dfCityFull ∧
    (dfCityFull.colNames = dfCity.colNames ++ derivedCols ∧
      (∀ c, c ∉ derivedCols → dfCityFull.getCol c = dfCity.getCol c) ∧
      (∀ c ∈ derivedCols, ∃ vs, dfCityFull.getCol c = some vs ∧
        vs.length = 1)) := by
  have hwf : ∀ c ∈ dfCity.cols, (c : String × List Value).2.length = 1 := by
    decide
  have hfresh : ∀ c ∈ derivedCols, dfCity.getCol c = none := by decide
  have hga : dfCity.getCol "poi_lat" = some ([(37 : ℚ)].map Value.num) := by
    unfold dfCity DataFrame.getCol
    simp [List.find?]
  have hgb : dfCity.getCol "poi_lng" =
      some ([(-122 : ℚ)].map Value.num) := by
    unfold dfCity DataFrame.getCol
    simp [List.find?]
  have hgc : dfCity.getCol "receipt_lat" =
      some ([(37.1 : ℚ)].map Value.num) := by
    unfold dfCity DataFrame.getCol
    simp [List.find?]
  have hgd : dfCity.getCol "receipt_lng" =
      some ([(-122.1 : ℚ)].map Value.num) := by
    unfold dfCity DataFrame.getCol
    simp [List.find?]
  have h1 : compute_distances gdistZero dfCity = Except.ok dfCityDist := by
    unfold compute_distances
    rw [computeDistCol_eq gdistZero _ [37] [-122] [37.1] [-122.1]
      (getNumCol_of_getCol_num _ _ [37] hga)
      (getNumCol_of_getCol_num _ _ [-122] hgb)
      (getNumCol_of_getCol_num _ _ [37.1] hgc)
      (getNumCol_of_getCol_num _ _ [-122.1] hgd)]
    simp only [List.zip_cons_cons, List.zip_nil_right, mapE, geodesicKm,
      mkPoint, gdistZero]
    norm_num [abs_of_pos, abs_of_neg]
    unfold dfCity DataFrame.setCol dfCityDist
    norm_num [setColAux]
    simp
  have h2 : estimate_emissions dfCityDist = Except.ok dfCityFull := by
    have hg : dfCityDist.getCol "distance_km" =
        some ([(0 : ℚ)].map Value.num) := by
      unfold dfCityDist DataFrame.getCol
      simp [List.find?]
    have hn := getNumCol_of_getCol_num _ _ [0] hg
    rw [estimate_emissions_eq _ [0] hn]
    unfold dfCityDist DataFrame.setCol dfCityFull
    norm_num [setColAux, DIESEL_EMISSION_FACTOR, EV_EMISSION_FACTOR,
      score_ev_priority]
    simp
  exact ⟨hwf, hfresh, h1, h2,
    C1_passthrough gdistZero dfCity dfCityDist dfCityFull 1 hwf hfresh h1 h2⟩

end GreenRetail
